import Mathlib

/-!
Shallow embedding of the MeowCamera audio-event detection pipeline
(`src/lib/meowDetectorModule.ts` together with the audio filter module
defining `SmartMeowFilter`, `AdaptiveThreshold` and `CombinedFilter`),
used to check the natural-language specification against the code.

Conventions of the embedding:
* decibel values, amplitudes, scores and qualities are rationals (`ℚ`);
* timestamps (`Date.now()`) are integers in milliseconds (`ℤ`) passed
  explicitly to every function that reads the clock;
* every `Math.random()` draw is an explicit parameter `r`, with the range
  `0 ≤ r < 1` carried as a hypothesis where needed;
* a JavaScript value that may be `undefined` is an `Option`;
* the JavaScript idiom `x?.field || d` (default `d` when the field is
  missing or zero) is `jsOr`; a truthiness test on a possibly missing
  number is `jsTruthy`;
* comparisons of `Math.sqrt variance` against a constant `c ≥ 0` are
  embedded as the exactly equivalent comparison of `variance` against
  `c ^ 2` (the standard deviation is nonnegative), keeping every
  definition decidable and executable;
* a JavaScript exception is an `Except.error`; `try`/`catch` is a `match`
  on the `Except` value;
* JavaScript arrays mutated by `push`/`shift` are Lean lists, appended at
  the tail and capped by dropping the head.
-/

section MeowCamera

attribute [local semireducible] Rat.add Rat.mul Rat.sub Rat.inv Rat.ofScientific

/-- Detector lifecycle states (`MeowDetectorState` in `types/audioTypes.ts`). -/
inductive MeowDetectorState where
  | Idle
  | Recording
  | Processing
  | Done
  | Error
  deriving DecidableEq, Repr

/-- Embeds `AudioFeatures` from `types/audioTypes.ts`.  In TypeScript all fields are
optional; the four fields that every feature bundle built by the detector
module assigns (`amplitude`, `spectralCentroidMean`, `duration`,
`recordingQuality`) are embedded as plain rationals, the fields that some
construction sites omit stay `Option`. -/
structure AudioFeatures where
  amplitude : ℚ
  spectralCentroidMean : ℚ
  spectralCentroidStd : Option ℚ := none
  pitchMean : Option ℚ := none
  pitchStd : Option ℚ := none
  zeroCrossingRateMean : Option ℚ := none
  zeroCrossingRateStd : Option ℚ := none
  mfccFeatures : Option (List ℚ) := none
  duration : ℚ
  recordingQuality : ℚ
  deriving DecidableEq, Repr

/-- Embeds `AudioAnalysisResult` from `types/audioTypes.ts`, restricted to the five
fields every detection event built by the detector module assigns. -/
structure AudioAnalysisResult where
  isMeow : Bool
  emotion : String
  confidence : ℚ
  features : AudioFeatures
  timestamp : ℤ
  deriving DecidableEq, Repr

/-- The fields of the external extraction result the module reads
(`analysisData.rms?.mean`, `analysisData.spectralCentroid?.mean`, …),
flattened: each optional-chaining access is one `Option ℚ` field. -/
structure ExtractionData where
  rmsMean : Option ℚ := none
  spectralCentroidMean : Option ℚ := none
  spectralCentroidStd : Option ℚ := none
  pitchMean : Option ℚ := none
  pitchStd : Option ℚ := none
  zcrMean : Option ℚ := none
  zcrStd : Option ℚ := none
  mfccValues : Option (List ℚ) := none
  deriving DecidableEq, Repr

/-- The recording status the timer path reads (`status.durationMillis`). -/
structure RecordingHandle where
  durationMillis : Option ℚ := none
  deriving DecidableEq, Repr

/-- JavaScript `o || d` on a possibly missing number: the default replaces
a missing value and also a zero value (zero is falsy). -/
def jsOr (o : Option ℚ) (d : ℚ) : ℚ :=
  match o with
  | none => d
  | some v => if v = 0 then d else v

/-- JavaScript truthiness of a possibly missing number: `false` exactly for
`undefined` and `0`. -/
def jsTruthy (o : Option ℚ) : Bool :=
  match o with
  | none => false
  | some v => decide (v ≠ 0)

/-- Embeds `this.rmsThreshold` (meowDetectorModule.ts line 53). -/
def rmsThreshold : ℚ := 5/100

/-- Embeds `this.spectralCentroidMinThreshold` (line 54). -/
def spectralCentroidMinThreshold : ℚ := 150

/-- Embeds `this.spectralCentroidMaxThreshold` (line 55). -/
def spectralCentroidMaxThreshold : ℚ := 1200

/-- Embeds `MeowDetectorModule.detectMeow` (lines 505-516): volume gate AND
frequency-band gate. -/
def detectMeow (rms spectralCentroid : ℚ) : Bool :=
  let hasSignificantVolume := decide (rms > rmsThreshold)
  let isInFrequencyRange :=
    decide (spectralCentroid ≥ spectralCentroidMinThreshold) &&
    decide (spectralCentroid ≤ spectralCentroidMaxThreshold)
  hasSignificantVolume && isInFrequencyRange

/-- Embeds `status.durationMillis ? status.durationMillis / 1000 : 1.0`
(line 464). -/
def jsDurationSeconds (durationMillis : Option ℚ) : ℚ :=
  if jsTruthy durationMillis then durationMillis.getD 0 / 1000 else 1

/-- Embeds `MeowDetectorModule.predictEmotionFromFeatures` (lines 592-610). -/
def predictEmotionFromFeatures (features : AudioFeatures) : String :=
  if !jsTruthy features.pitchMean then "未知"
  else if features.pitchMean.getD 0 > 600 then "紧张"
  else if features.pitchMean.getD 0 > 400 then "呼唤"
  else "平静"

/-- The neutral default features built in the `catch` branch of
`analyzeAudio` (lines 489-494) and in the timer tick `catch` branch
(lines 300-305): amplitude 0.05, centroid 0, duration 0, quality 0.5. -/
def defaultAnalysisFeatures : AudioFeatures :=
  { amplitude := 5/100
    spectralCentroidMean := 0
    duration := 0
    recordingQuality := 1/2 }

/-- The result returned by the `catch` branch of `analyzeAudio`
(lines 483-499). -/
def analysisFailureResult (now : ℤ) : AudioAnalysisResult :=
  { isMeow := false
    emotion := "未知"
    confidence := 0
    features := defaultAnalysisFeatures
    timestamp := now }

/-- The success path of `analyzeAudio` (lines 414-482): defaulted RMS and
spectral centroid feed `detectMeow`, features carry `recordingQuality`
0.9, and the emotion is the inline rule
`isMeow ? (pitchMean && pitchMean > 400 ? 紧张 : 平静) : 未知`. -/
def analyzeAudioSuccess (durationMillis : Option ℚ) (d : ExtractionData)
    (now : ℤ) : AudioAnalysisResult :=
  let rms := jsOr d.rmsMean (1/10)
  let spectralCentroid := jsOr d.spectralCentroidMean 500
  let isMeow := detectMeow rms spectralCentroid
  let features : AudioFeatures :=
    { amplitude := rms
      spectralCentroidMean := spectralCentroid
      spectralCentroidStd := some (jsOr d.spectralCentroidStd 0)
      pitchMean := some (jsOr d.pitchMean 0)
      pitchStd := some (jsOr d.pitchStd 0)
      zeroCrossingRateMean := some (jsOr d.zcrMean 0)
      zeroCrossingRateStd := some (jsOr d.zcrStd 0)
      duration := jsDurationSeconds durationMillis
      recordingQuality := 9/10 }
  let emotion :=
    if isMeow then
      if jsTruthy features.pitchMean && decide (features.pitchMean.getD 0 > 400)
      then "紧张" else "平静"
    else "未知"
  { isMeow := isMeow
    emotion := emotion
    confidence := if isMeow then 85/100 else 3/10
    features := features
    timestamp := now }

/-- Embeds `MeowDetectorModule.analyzeAudio` (lines 407-500).  The recording-null
check and its `throw` sit before the `try` block, so only that case
escapes as an exception; all failures inside the `try` (status, URI,
extraction) are the `extraction = none` case and are caught, yielding the
neutral default result. -/
def analyzeAudio (recording : Option RecordingHandle)
    (extraction : Option ExtractionData) (now : ℤ) :
    Except String AudioAnalysisResult :=
  match recording with
  | none => Except.error "没有正在进行的录音"
  | some handle =>
    match extraction with
    | some d => Except.ok (analyzeAudioSuccess handle.durationMillis d now)
    | none => Except.ok (analysisFailureResult now)

/-- The result built by the timer tick `catch` branch (lines 295-311). -/
def tickCatchFallbackResult (now : ℤ) : AudioAnalysisResult :=
  { isMeow := false
    emotion := "错误"
    confidence := 0
    features := defaultAnalysisFeatures
    timestamp := now }

/-- The body of the periodic analysis timer callback (lines 250-294),
before its surrounding `catch`: when no recording is held nothing is
emitted; otherwise `analyzeAudio` runs and its result is passed to the
caller's callback (exactly one invocation).  An uncaught exception
surfaces as `Except.error`. -/
def timerTickBody (recording : Option RecordingHandle)
    (extraction : Option ExtractionData) (now : ℤ) :
    Except String (List AudioAnalysisResult) :=
  match recording with
  | none => Except.ok []
  | some handle =>
    (analyzeAudio (some handle) extraction now).map (fun r => [r])

/-- The full periodic analysis timer callback (lines 250-312): the body
with its `catch` branch, which converts any escaping exception into one
zero-confidence fallback event instead of terminating the interval
timer.  The returned list is the sequence of arguments passed to the
caller's callback during the tick. -/
def timerTick (recording : Option RecordingHandle)
    (extraction : Option ExtractionData) (now : ℤ) :
    List AudioAnalysisResult :=
  match timerTickBody recording extraction now with
  | Except.ok events => events
  | Except.error _ => [tickCatchFallbackResult now]

/-- Embeds `MeowDetectorModule.getBasicFeaturesFromMetering` (lines 573-585):
the fixed degraded feature set, quality 0.7. -/
def getBasicFeaturesFromMetering : AudioFeatures :=
  { amplitude := 3/10
    spectralCentroidMean := 700
    spectralCentroidStd := some 100
    pitchMean := some 500
    pitchStd := some 50
    zeroCrossingRateMean := some (5/100)
    zeroCrossingRateStd := some (2/100)
    duration := 1
    recordingQuality := 7/10 }

/-- The nine `Math.random()` draws consumed by
`generateMockMeowFeatures`, one per generated field. -/
structure MockRandoms where
  amplitude : ℚ
  spectralCentroidMean : ℚ
  spectralCentroidStd : ℚ
  pitchMean : ℚ
  pitchStd : ℚ
  zcrMean : ℚ
  zcrStd : ℚ
  duration : ℚ
  recordingQuality : ℚ
  deriving DecidableEq, Repr

/-- Embeds `MeowDetectorModule.generateMockMeowFeatures` (lines 616-639); note
`recordingQuality: 0.8 + Math.random() * 0.2`. -/
def generateMockMeowFeatures (r : MockRandoms) : AudioFeatures :=
  { amplitude := 2/10 + r.amplitude * (3/10)
    spectralCentroidMean := 500 + r.spectralCentroidMean * 400
    spectralCentroidStd := some (50 + r.spectralCentroidStd * 50)
    pitchMean := some (300 + r.pitchMean * 500)
    pitchStd := some (20 + r.pitchStd * 40)
    zeroCrossingRateMean := some (5/100 + r.zcrMean * (5/100))
    zeroCrossingRateStd := some (1/100 + r.zcrStd * (2/100))
    duration := 1 + r.duration * 2
    recordingQuality := 8/10 + r.recordingQuality * (2/10) }

/-- The success path of `extractRealtimeFeatures` (lines 534-561):
defaulted fields from the extraction result, quality 0.9.  A missing mfcc
array defaults to `[]` (an array, even empty, is truthy in JavaScript so
only absence triggers the default). -/
def extractRealtimeFeaturesSuccess (d : ExtractionData) : AudioFeatures :=
  { amplitude := jsOr d.rmsMean (3/10)
    spectralCentroidMean := jsOr d.spectralCentroidMean 700
    spectralCentroidStd := some (jsOr d.spectralCentroidStd 100)
    pitchMean := some (jsOr d.pitchMean 500)
    pitchStd := some (jsOr d.pitchStd 50)
    zeroCrossingRateMean := some (jsOr d.zcrMean (5/100))
    zeroCrossingRateStd := some (jsOr d.zcrStd (2/100))
    mfccFeatures := some (d.mfccValues.getD [])
    duration := 1
    recordingQuality := 9/10 }

/-- Embeds `MeowDetectorModule.extractRealtimeFeatures` (lines 522-567): throws
only when no recording is held (that `throw` precedes the `try`); any
failure inside the `try` (URI, extraction) is caught and degrades to
`getBasicFeaturesFromMetering`. -/
def extractRealtimeFeatures (recording : Option RecordingHandle)
    (extraction : Option ExtractionData) : Except String AudioFeatures :=
  match recording with
  | none => Except.error "没有活动的录音实例"
  | some _ =>
    match extraction with
    | some d => Except.ok (extractRealtimeFeaturesSuccess d)
    | none => Except.ok getBasicFeaturesFromMetering

/-- The per-sample trigger path's success event (lines 198-204): features
from realtime extraction, emotion from `predictEmotionFromFeatures`,
confidence `0.7 + Math.random() * 0.25`. -/
def triggerSuccessEvent (features : AudioFeatures) (rConf : ℚ)
    (now : ℤ) : AudioAnalysisResult :=
  { isMeow := true
    emotion := predictEmotionFromFeatures features
    confidence := 7/10 + rConf * (25/100)
    features := features
    timestamp := now }

/-- The per-sample trigger path's fallback event (lines 211-227), built
when `extractRealtimeFeatures` throws: mock features and a coin-flip
emotion `Math.random() > 0.5 ? 紧张 : 平静`. -/
def triggerFallbackEvent (r : MockRandoms) (rEmo rConf : ℚ)
    (now : ℤ) : AudioAnalysisResult :=
  { isMeow := true
    emotion := if rEmo > 1/2 then "紧张" else "平静"
    confidence := 7/10 + rConf * (25/100)
    features := generateMockMeowFeatures r
    timestamp := now }

/-- The Simple Amplitude per-sample path (lines 156-229 with
`detectionMode = SIMPLE_AMPLITUDE`): a sample fires when its metering is
at least −30 dBFS and at least 3000 ms (`minInterval`) have passed since
`lastMeowDetectionTime`, which then becomes the current time.  The
returned list collects the timestamps of the emitted trigger events
(each emitted event carries `timestamp := currentTime`). -/
def simpleAmplitudeRun (lastMeowDetectionTime : ℤ) :
    List (ℚ × ℤ) → List ℤ
  | [] => []
  | (metering, t) :: rest =>
    if metering ≥ -30 then
      if t - lastMeowDetectionTime ≥ 3000 then
        t :: simpleAmplitudeRun t rest
      else
        simpleAmplitudeRun lastMeowDetectionTime rest
    else
      simpleAmplitudeRun lastMeowDetectionTime rest

/-- The detector-instance state read and written by `stopListening`:
lifecycle state, whether the interval timer is installed, whether a
recording object is held. -/
structure DetectorHandleState where
  state : MeowDetectorState
  timerActive : Bool
  hasRecording : Bool
  deriving DecidableEq, Repr

/-- Embeds `MeowDetectorModule.stopListening` (lines 329-361), step by step:
clear the timer if installed; if a recording is held, call
`stopAndUnloadAsync` — `closeThrows` says whether that call throws; the
exception is caught (logged) and the `finally` block drops the recording
reference either way — and finally set the state to `Idle`. -/
def stopListening (s : DetectorHandleState) (closeThrows : Bool) :
    DetectorHandleState :=
  let s1 := if s.timerActive then { s with timerActive := false } else s
  let s2 :=
    if s1.hasRecording then
      let _unloadOutcome : Except String Unit :=
        if closeThrows then Except.error "停止录音失败" else Except.ok ()
      { s1 with hasRecording := false }
    else s1
  { s2 with state := MeowDetectorState.Idle }

/-- JavaScript `arr.push(x)` followed by `if (arr.length > cap) arr.shift()`,
the history-buffer discipline used by every filter in the audio filter
module. -/
def pushCapped (l : List ℚ) (x : ℚ) (cap : ℕ) : List ℚ :=
  let l2 := l ++ [x]
  if l2.length > cap then l2.tail else l2

/-- Same discipline for the trigger-timestamp history. -/
def pushCappedTimes (l : List ℤ) (x : ℤ) (cap : ℕ) : List ℤ :=
  let l2 := l ++ [x]
  if l2.length > cap then l2.tail else l2

/-- Embeds `arr.reduce((a, b) => a + b, 0) / arr.length`. -/
def listMean (l : List ℚ) : ℚ := l.sum / l.length

/-- Embeds `arr.reduce((a, b) => a + Math.pow(b - mean, 2), 0) / arr.length`:
the (population) variance, whose square root the source compares against
constants. -/
def listVariance (l : List ℚ) : ℚ :=
  (l.map (fun b => (b - listMean l) ^ 2)).sum / l.length

/-- Embeds `Math.max(...arr)` for the nonempty windows the source applies it to. -/
def listMax (l : List ℚ) : ℚ :=
  match l with
  | [] => 0
  | x :: xs => xs.foldl max x

/-- Insertion step of `arr.sort((a, b) => a - b)`. -/
def insertSorted (x : ℚ) : List ℚ → List ℚ
  | [] => [x]
  | y :: ys => if x ≤ y then x :: y :: ys else y :: insertSorted x ys

/-- Embeds `arr.sort((a, b) => a - b)`: ascending numeric sort. -/
def sortAsc (l : List ℚ) : List ℚ := l.foldr insertSorted []

/-- Embeds `SmartMeowFilter` state: amplitude history (capacity
`HISTORY_SIZE = 10`) and trigger-timestamp history (capacity 10). -/
structure SmartMeowFilter where
  amplitudeHistory : List ℚ := []
  triggerHistory : List ℤ := []
  deriving DecidableEq, Repr

/-- The freshly constructed `SmartMeowFilter` (both histories empty). -/
def initialSmartFilter : SmartMeowFilter := {}

/-- Embeds `SmartMeowFilter.analyzeAmplitudePattern` (filter module lines
74-107): pushes the sample into the history first, then scores; returns
the score together with the updated history. -/
def analyzeAmplitudePattern (history : List ℚ) (currentMetering : ℚ) :
    ℚ × List ℚ :=
  let h := pushCapped history currentMetering 10
  if h.length < 3 then (0, h)
  else
    let recentValues := h.drop (h.length - 3)
    let rise := recentValues.getD 2 0 - recentValues.getD 0 0
    let s1 : ℚ := if rise > 10 then 4/10 else 0
    let average := listMean h
    let s2 : ℚ := if currentMetering > average + 5 then 3/10 else 0
    let s3 : ℚ :=
      if currentMetering ≥ -30 ∧ currentMetering ≤ -10 then 3/10 else 0
    (min (s1 + s2 + s3) 1, h)

/-- Embeds `SmartMeowFilter.analyzeTimePattern` (lines 112-136): scores the gap
since the last recorded trigger (`MIN_INTERVAL = 2000` ms). -/
def analyzeTimePattern (triggerHistory : List ℤ) (now : ℤ) : ℚ :=
  match triggerHistory.getLast? with
  | none => 1/2
  | some lastTrigger =>
    let interval := now - lastTrigger
    if interval < 2000 then 0
    else if 2000 ≤ interval ∧ interval ≤ 10000 then 8/10
    else 1

/-- Embeds `SmartMeowFilter.analyzeVariationPattern` (lines 141-163); the
standard-deviation comparisons `stdDev < 2` and `stdDev ≤ 10` are
embedded as `variance < 4` and `variance ≤ 100`. -/
def analyzeVariationPattern (history : List ℚ) : ℚ :=
  if history.length < 3 then 1/2
  else
    let v := listVariance history
    if v < 4 then 2/10
    else if 4 ≤ v ∧ v ≤ 100 then 9/10
    else 1/2

/-- Embeds `SmartMeowFilter.shouldTriggerDetection` (lines 34-69): quiet samples
(< −40 dBFS) short-circuit to no-fire without touching any state;
otherwise the three sub-scores are combined with weights 0.5/0.3/0.2 and
a total above 0.6 fires and records the timestamp. -/
def shouldTriggerDetection (st : SmartMeowFilter) (metering : ℚ)
    (now : ℤ) : Bool × SmartMeowFilter :=
  if metering < -40 then (false, st)
  else
    let ampResult := analyzeAmplitudePattern st.amplitudeHistory metering
    let timeScore := analyzeTimePattern st.triggerHistory now
    let varScore := analyzeVariationPattern ampResult.2
    let score :=
      ampResult.1 * (5/10) + timeScore * (3/10) + varScore * (2/10)
    if score > 6/10 then
      (true, { amplitudeHistory := ampResult.2
               triggerHistory := pushCappedTimes st.triggerHistory now 10 })
    else
      (false, { amplitudeHistory := ampResult.2
                triggerHistory := st.triggerHistory })

/-- Runs `shouldTriggerDetection` over a sequence of (metering,
timestamp) samples, collecting each call's decision and the final state. -/
def runSmart (st : SmartMeowFilter) :
    List (ℚ × ℤ) → List Bool × SmartMeowFilter
  | [] => ([], st)
  | (m, t) :: rest =>
    let step := shouldTriggerDetection st m t
    let tail := runSmart step.2 rest
    (step.1 :: tail.1, tail.2)

/-- Embeds `AdaptiveThreshold` state: noise floor (initially −60 dBFS), recent
peaks (capacity 5), recent values (capacity `WINDOW_SIZE = 100`), last
trigger time. -/
structure AdaptiveThreshold where
  noiseFloor : ℚ := -60
  recentPeaks : List ℚ := []
  recentValues : List ℚ := []
  lastTriggerTime : ℤ := 0
  deriving DecidableEq, Repr

/-- The freshly constructed `AdaptiveThreshold`. -/
def initialAdaptiveThreshold : AdaptiveThreshold := {}

/-- Embeds `AdaptiveThreshold.calculateDynamicMargin` (lines 238-256): with
fewer than 20 stored samples the margin is the fixed default 20 dB;
otherwise 15/20/25 dB by the standard deviation of the stored samples
(`stdDev < 2` ↔ `variance < 4`, `stdDev < 5` ↔ `variance < 25`). -/
def calculateDynamicMargin (recentValues : List ℚ) : ℚ :=
  if recentValues.length < 20 then 20
  else
    let v := listVariance recentValues
    if v < 4 then 15
    else if v < 25 then 20
    else 25

/-- Embeds `AdaptiveThreshold.isSignificantPeak` (lines 261-276): with fewer
than `PEAK_WINDOW = 10` stored samples the test is the fixed threshold
`current > -30`; otherwise `slice(-10, -1)` — the 9 stored samples
preceding the current one, which was already pushed — and the test is
`> max + 3` or `> mean + 10` over that window. -/
def isSignificantPeak (recentValues : List ℚ) (current : ℚ) : Bool :=
  if recentValues.length < 10 then decide (current > -30)
  else
    let recentWindow :=
      (recentValues.drop (recentValues.length - 10)).dropLast
    decide (current > listMax recentWindow + 3) ||
    decide (current > listMean recentWindow + 10)

/-- The value history after the `push`/`shift` at the top of
`updateAndCheck` (lines 193-196). -/
def adaptivePostValues (st : AdaptiveThreshold) (metering : ℚ) : List ℚ :=
  pushCapped st.recentValues metering 100

/-- The noise floor after the median update of `updateAndCheck` (lines
199-204): with at least 10 stored values the floor decays toward the
median, `floor * 0.95 + median * 0.05`, where the median is
`sorted[Math.floor(length / 2)]`. -/
def adaptivePostFloor (st : AdaptiveThreshold) (rv : List ℚ) : ℚ :=
  if rv.length ≥ 10 then
    let sorted := sortAsc rv
    st.noiseFloor * (95/100) + sorted.getD (sorted.length / 2) 0 * (5/100)
  else st.noiseFloor

/-- Embeds `AdaptiveThreshold.updateAndCheck` (lines 191-232): push the sample,
update the noise floor, reject below `floor + margin` or below −40 dBFS,
then fire only on a significant peak with strictly more than 1000 ms
since the last fire. -/
def updateAndCheck (st : AdaptiveThreshold) (metering : ℚ) (now : ℤ) :
    Bool × AdaptiveThreshold :=
  let rv := adaptivePostValues st metering
  let floor := adaptivePostFloor st rv
  let margin := calculateDynamicMargin rv
  let threshold := floor + margin
  if metering < threshold ∨ metering < -40 then
    (false, { st with recentValues := rv, noiseFloor := floor })
  else if isSignificantPeak rv metering ∧ now - st.lastTriggerTime > 1000 then
    (true, { noiseFloor := floor
             recentPeaks := pushCapped st.recentPeaks metering 5
             recentValues := rv
             lastTriggerTime := now })
  else
    (false, { st with recentValues := rv, noiseFloor := floor })

/-- Runs `updateAndCheck` over a sequence of (metering, timestamp)
samples, collecting each call's decision and the final state. -/
def runAdaptive (st : AdaptiveThreshold) :
    List (ℚ × ℤ) → List Bool × AdaptiveThreshold
  | [] => ([], st)
  | (m, t) :: rest =>
    let step := updateAndCheck st m t
    let tail := runAdaptive step.2 rest
    (step.1 :: tail.1, tail.2)

/-- Modelled from the claim's words (C7), for comparison with the code:
"the margin is 15 dB when the recent standard deviation is below 2,
20 dB when below 5, else 25 dB" — with no fewer-than-20-samples default.
Standard-deviation comparisons are embedded via the variance as above. -/
def claimedDynamicMargin (recentValues : List ℚ) : ℚ :=
  let v := listVariance recentValues
  if v < 4 then 15
  else if v < 25 then 20
  else 25

/-! ## Theorems -/

/-- C4: `detectMeow rms c` is `true` iff the RMS strictly exceeds the 0.05
volume threshold and the spectral centroid lies in the inclusive band
150..1200 Hz; in particular `detectMeow 0.1 500 = true`,
`detectMeow 0.01 500 = false`, `detectMeow 0.1 2000 = false`.  Neither
condition alone ever suffices, which is the content of the equivalence. -/
theorem detectMeow_iff_volume_and_band :
    (∀ rms c : ℚ, detectMeow rms c = true ↔
      (rms > 5/100 ∧ 150 ≤ c ∧ c ≤ 1200)) ∧
    detectMeow (1/10) 500 = true ∧
    detectMeow (1/100) 500 = false ∧
    detectMeow (1/10) 2000 = false := by
  refine ⟨fun rms c => ?_, by decide, by decide, by decide⟩
  simp [detectMeow, rmsThreshold, spectralCentroidMinThreshold,
    spectralCentroidMaxThreshold, and_assoc]

/-- C3: whatever the prior lifecycle state and whether or not closing the
capture resource throws, `stopListening` ends with state `Idle`, no
installed timer and no held recording; calling it on an already idle,
timer-free, recording-free detector leaves that state unchanged. -/
theorem stopListening_always_idle :
    ∀ (s : DetectorHandleState) (closeThrows : Bool),
      (stopListening s closeThrows).state = MeowDetectorState.Idle ∧
      (stopListening s closeThrows).timerActive = false ∧
      (stopListening s closeThrows).hasRecording = false ∧
      stopListening ⟨MeowDetectorState.Idle, false, false⟩ closeThrows =
        ⟨MeowDetectorState.Idle, false, false⟩ := by
  intro s b
  obtain ⟨st, tA, hR⟩ := s
  cases tA <;> cases hR <;> cases b <;> simp [stopListening]

/-- C2: with a recording held, every tick of the periodic analysis timer
passes exactly one event to the caller's callback; the tick body never
lets an exception escape (so the interval timer survives every analysis
failure); and when the extraction inside `analyzeAudio` fails the single
emitted event is the zero-confidence, non-meow, neutral-default-feature
fallback. -/
theorem timer_tick_emits_exactly_once :
    ∀ (handle : RecordingHandle) (extraction : Option ExtractionData)
      (now : ℤ),
      (timerTick (some handle) extraction now).length = 1 ∧
      timerTickBody (some handle) extraction now =
        Except.ok (timerTick (some handle) extraction now) ∧
      (extraction = none →
        timerTick (some handle) extraction now =
          [analysisFailureResult now]) ∧
      (analysisFailureResult now).confidence = 0 ∧
      (analysisFailureResult now).isMeow = false ∧
      (analysisFailureResult now).features = defaultAnalysisFeatures := by
  intro handle extraction now
  cases extraction <;>
    simp [timerTick, timerTickBody, analyzeAudio, Except.map,
      analysisFailureResult]

/-- C2 witness: a tick holding a recording whose extraction fails emits
exactly the zero-confidence fallback event. -/
theorem timer_tick_emits_exactly_once_witness :
    timerTick (some {}) none 0 = [analysisFailureResult 0] ∧
    (analysisFailureResult 0).confidence = 0 := by
  exact ⟨(timer_tick_emits_exactly_once {} none 0).2.2.1 rfl,
    (timer_tick_emits_exactly_once {} none 0).2.2.2.1⟩

/-- C5 counterexample: with an empty trigger history the time-pattern
sub-score is 0.5, not 0 as claimed (the source comments it as a medium
score for a first trigger). -/
theorem analyzeTimePattern_empty_counterexample :
    analyzeTimePattern [] 0 = 1/2 ∧ analyzeTimePattern [] 0 ≠ 0 := by
  constructor <;> decide

/-- C5 amended: the time-pattern sub-score is 0.5 when the trigger
history is empty; with a last recorded fire it is 0 for a gap under
2000 ms, 0.8 for a gap of 2000..10000 ms, and 1.0 for a longer gap. -/
theorem analyzeTimePattern_amended :
    ∀ (triggerHistory : List ℤ) (now lastTrigger : ℤ),
      (triggerHistory = [] → analyzeTimePattern triggerHistory now = 1/2) ∧
      (triggerHistory.getLast? = some lastTrigger →
        (now - lastTrigger < 2000 →
            analyzeTimePattern triggerHistory now = 0) ∧
        (2000 ≤ now - lastTrigger → now - lastTrigger ≤ 10000 →
            analyzeTimePattern triggerHistory now = 8/10) ∧
        (10000 < now - lastTrigger →
            analyzeTimePattern triggerHistory now = 1)) := by
  intro hist now last
  refine ⟨fun h => by subst h; rfl, fun hlast => ?_⟩
  unfold analyzeTimePattern
  rw [hlast]
  dsimp only
  refine ⟨fun h1 => ?_, fun h2 h3 => ?_, fun h4 => ?_⟩
  · rw [if_pos h1]
  · rw [if_neg (by omega), if_pos ⟨h2, h3⟩]
  · rw [if_neg (by omega), if_neg (by omega)]

/-- C5 witness: the empty history scores 0.5, and a 3000 ms gap since
the last fire scores 0.8. -/
theorem analyzeTimePattern_amended_witness :
    analyzeTimePattern [] 5 = 1/2 ∧ analyzeTimePattern [0] 3000 = 8/10 := by
  exact ⟨(analyzeTimePattern_amended [] 5 0).1 rfl,
    ((analyzeTimePattern_amended [0] 3000 0).2 rfl).2.1 (by decide)
      (by decide)⟩

/-- C1 counterexample: the mock feature generator is a fallback path (it
is used when realtime extraction throws), yet at the legitimate random
draw 1/2 its `recordingQuality` is 0.9: not at most 0.7, and not
strictly below the genuine-extraction quality 0.9. -/
theorem mock_quality_counterexample :
    ¬ ((generateMockMeowFeatures
          ⟨1/2, 1/2, 1/2, 1/2, 1/2, 1/2, 1/2, 1/2, 1/2⟩).recordingQuality
        ≤ 7/10) ∧
    ¬ ((generateMockMeowFeatures
          ⟨1/2, 1/2, 1/2, 1/2, 1/2, 1/2, 1/2, 1/2, 1/2⟩).recordingQuality
        < (extractRealtimeFeaturesSuccess {}).recordingQuality) := by
  constructor <;> decide

/-- C1 amended: the timer-tick analysis-failure default (0.5) and the
metering-based degraded features (0.7) carry `recordingQuality ≤ 0.7`
and strictly below the genuine-extraction quality; both genuine paths
(`analyzeAudio` success and `extractRealtimeFeatures` success) carry
exactly 0.9; but the mock generator's quality is `0.8 + r * 0.2`, lying
in [0.8, 1.0) for every random draw, so it can equal or exceed 0.9. -/
theorem recording_quality_amended :
    ∀ (r : MockRandoms) (durationMillis : Option ℚ) (d d2 : ExtractionData)
      (now : ℤ),
      defaultAnalysisFeatures.recordingQuality = 1/2 ∧
      getBasicFeaturesFromMetering.recordingQuality = 7/10 ∧
      defaultAnalysisFeatures.recordingQuality ≤ 7/10 ∧
      getBasicFeaturesFromMetering.recordingQuality ≤ 7/10 ∧
      (analyzeAudioSuccess durationMillis d now).features.recordingQuality
        = 9/10 ∧
      (extractRealtimeFeaturesSuccess d2).recordingQuality = 9/10 ∧
      defaultAnalysisFeatures.recordingQuality <
        (analyzeAudioSuccess durationMillis d now).features.recordingQuality ∧
      getBasicFeaturesFromMetering.recordingQuality <
        (extractRealtimeFeaturesSuccess d2).recordingQuality ∧
      (0 ≤ r.recordingQuality → r.recordingQuality < 1 →
        8/10 ≤ (generateMockMeowFeatures r).recordingQuality ∧
        (generateMockMeowFeatures r).recordingQuality < 1) := by
  intro r dm d d2 now
  refine ⟨rfl, rfl, by decide, by decide, rfl, rfl, ?_, ?_,
    fun h0 h1 => ?_⟩
  · show (1/2 : ℚ) < 9/10
    norm_num
  · show (7/10 : ℚ) < 9/10
    norm_num
  have hq : (generateMockMeowFeatures r).recordingQuality
      = 8/10 + r.recordingQuality * (2/10) := rfl
  constructor
  · rw [hq]
    nlinarith
  · rw [hq]
    nlinarith

/-- C1 amended witness: at the random draw 1/2 and empty extraction
data, the stated bounds hold concretely. -/
theorem recording_quality_amended_witness :
    (8/10 : ℚ) ≤ (generateMockMeowFeatures
        ⟨1/3, 1/3, 1/3, 1/3, 1/3, 1/3, 1/3, 1/3, 1/3⟩).recordingQuality ∧
    (generateMockMeowFeatures
        ⟨1/3, 1/3, 1/3, 1/3, 1/3, 1/3, 1/3, 1/3, 1/3⟩).recordingQuality
      < 1 := by
  exact (recording_quality_amended ⟨1/3, 1/3, 1/3, 1/3, 1/3, 1/3, 1/3, 1/3, 1/3⟩
    none {} {} 0).2.2.2.2.2.2.2.2 (by decide) (by decide)

/-- Membership in a capped push: an element of the updated buffer was
already stored or is the newly pushed sample. -/
theorem mem_pushCapped {l : List ℚ} {x y : ℚ} {cap : ℕ}
    (h : y ∈ pushCapped l x cap) : y ∈ l ∨ y = x := by
  unfold pushCapped at h
  dsimp only at h
  split_ifs at h with hc
  · have h2 : y ∈ l ++ [x] := List.mem_of_mem_tail h
    rcases List.mem_append.mp h2 with h3 | h3
    · exact Or.inl h3
    · exact Or.inr (by simpa using h3)
  · rcases List.mem_append.mp h with h3 | h3
    · exact Or.inl h3
    · exact Or.inr (by simpa using h3)

/-- The amplitude-pattern analysis always stores the sample: its returned
history is the capped push of the old one. -/
theorem analyzeAmplitudePattern_snd (history : List ℚ) (m : ℚ) :
    (analyzeAmplitudePattern history m).2 = pushCapped history m 10 := by
  unfold analyzeAmplitudePattern
  dsimp only
  split <;> rfl

/-- Quiet samples short-circuit the smart filter: below −40 dBFS the call
returns no-fire and the state untouched. -/
theorem shouldTriggerDetection_quiet (st : SmartMeowFilter) {m : ℚ}
    (t : ℤ) (hm : m < -40) :
    shouldTriggerDetection st m t = (false, st) := by
  unfold shouldTriggerDetection
  rw [if_pos hm]

/-- On a non-quiet sample the smart filter's new amplitude history is the
capped push of the old one (in both the fire and the no-fire branch). -/
theorem shouldTriggerDetection_history (st : SmartMeowFilter) {m : ℚ}
    (t : ℤ) (hm : ¬ m < -40) :
    (shouldTriggerDetection st m t).2.amplitudeHistory =
      pushCapped st.amplitudeHistory m 10 := by
  unfold shouldTriggerDetection
  rw [if_neg hm]
  dsimp only
  split <;> simp [analyzeAmplitudePattern_snd]

/-- Invariant: if every stored amplitude is at least −40 dBFS, running any
sample sequence through the smart filter preserves that. -/
theorem runSmart_history_inv :
    ∀ (samples : List (ℚ × ℤ)) (st : SmartMeowFilter),
      (∀ x ∈ st.amplitudeHistory, -40 ≤ x) →
      ∀ x ∈ (runSmart st samples).2.amplitudeHistory, -40 ≤ x := by
  intro samples
  induction samples with
  | nil => intro st hst x hx; exact hst x hx
  | cons p rest ih =>
    intro st hst x hx
    obtain ⟨m, t⟩ := p
    simp only [runSmart] at hx
    refine ih (shouldTriggerDetection st m t).2 ?_ x hx
    intro y hy
    by_cases hm : m < -40
    · rw [shouldTriggerDetection_quiet st t hm] at hy
      exact hst y hy
    · rw [shouldTriggerDetection_history st t hm] at hy
      rcases mem_pushCapped hy with h1 | rfl
      · exact hst y h1
      · exact not_lt.mp hm

/-- C9: whatever the smart filter's internal state, a sequence of samples
all below −40 dBFS never produces a fire decision. -/
theorem smart_quiet_never_fires :
    ∀ (st : SmartMeowFilter) (samples : List (ℚ × ℤ)),
      (∀ p ∈ samples, p.1 < -40) →
      ∀ b ∈ (runSmart st samples).1, b = false := by
  intro st samples
  induction samples generalizing st with
  | nil =>
    intro _ b hb
    simp [runSmart] at hb
  | cons p rest ih =>
    intro hall b hb
    obtain ⟨m, t⟩ := p
    have hm : m < -40 := hall (m, t) (List.mem_cons_self _ _)
    simp only [runSmart] at hb
    rw [shouldTriggerDetection_quiet st t hm] at hb
    rcases List.mem_cons.mp hb with rfl | hb2
    · rfl
    · exact ih st (fun q hq => hall q (List.mem_cons_of_mem _ hq)) b hb2

/-- C9 witness: an all-quiet two-sample sequence from the fresh filter
yields only no-fire decisions. -/
theorem smart_quiet_never_fires_witness :
    (runSmart initialSmartFilter [(-50, 0), (-45, 100)]).1 =
      [false, false] ∧
    ∀ b ∈ (runSmart initialSmartFilter [(-50, 0), (-45, 100)]).1,
      b = false := by
  refine ⟨by decide, ?_⟩
  exact smart_quiet_never_fires initialSmartFilter [(-50, 0), (-45, 100)]
    (by decide)

/-- C10: a quiet sample (below −40 dBFS) leaves the smart filter's entire
state unchanged, and consequently every amplitude stored in any state
reachable from the fresh filter is at least −40 dBFS — the rolling mean
and standard deviation are computed over loud samples only. -/
theorem smart_quiet_state_unchanged_and_history_loud :
    (∀ (st : SmartMeowFilter) (m : ℚ) (now : ℤ), m < -40 →
      shouldTriggerDetection st m now = (false, st)) ∧
    (∀ (samples : List (ℚ × ℤ)) (x : ℚ),
      x ∈ (runSmart initialSmartFilter samples).2.amplitudeHistory →
      -40 ≤ x) := by
  constructor
  · intro st m now hm
    exact shouldTriggerDetection_quiet st now hm
  · intro samples x hx
    exact runSmart_history_inv samples initialSmartFilter
      (by simp [initialSmartFilter]) x hx

/-- C10 witness: a concrete quiet call leaves the fresh filter unchanged,
and the concrete stored sample −20 of a one-sample run is loud. -/
theorem smart_quiet_state_unchanged_and_history_loud_witness :
    shouldTriggerDetection initialSmartFilter (-50) 0 =
      (false, initialSmartFilter) ∧ (-40 : ℚ) ≤ -20 := by
  constructor
  · exact smart_quiet_state_unchanged_and_history_loud.1
      initialSmartFilter (-50) 0 (by decide)
  · exact smart_quiet_state_unchanged_and_history_loud.2
      [(-20, 0)] (-20) (by decide)

/-- Every timestamp emitted by the simple-amplitude run is at least
3000 ms after the last-fire time the run started from. -/
theorem simpleAmplitudeRun_lb :
    ∀ (samples : List (ℚ × ℤ)) (last e : ℤ),
      e ∈ simpleAmplitudeRun last samples → last + 3000 ≤ e := by
  intro samples
  induction samples with
  | nil => intro last e h; simp [simpleAmplitudeRun] at h
  | cons p rest ih =>
    intro last e h
    obtain ⟨m, t⟩ := p
    simp only [simpleAmplitudeRun] at h
    split_ifs at h with h1 h2
    · rcases List.mem_cons.mp h with rfl | hm2
      · omega
      · have := ih t e hm2
        omega
    · exact ih last e h
    · exact ih last e h

/-- The simple-amplitude run's emitted timestamps are pairwise at least
3000 ms apart, from any starting last-fire time. -/
theorem simpleAmplitudeRun_pairwise :
    ∀ (samples : List (ℚ × ℤ)) (last : ℤ),
      (simpleAmplitudeRun last samples).Pairwise
        (fun a b => a + 3000 ≤ b) := by
  intro samples
  induction samples with
  | nil => intro last; simp [simpleAmplitudeRun]
  | cons p rest ih =>
    intro last
    obtain ⟨m, t⟩ := p
    simp only [simpleAmplitudeRun]
    split_ifs with h1 h2
    · exact List.pairwise_cons.mpr
        ⟨fun e he => simpleAmplitudeRun_lb rest t e he, ih t⟩
    · exact ih last
    · exact ih last

/-- C8: for every loudness sequence processed in Simple Amplitude mode
(initial last-fire time 0), any two emitted trigger events are at least
3000 ms apart — the detector never emits two trigger-path events whose
timestamps are less than the 3000 ms minimum re-fire interval apart. -/
theorem simple_mode_min_refire_interval :
    ∀ samples : List (ℚ × ℤ),
      (simpleAmplitudeRun 0 samples).Pairwise
        (fun a b => a + 3000 ≤ b) :=
  fun samples => simpleAmplitudeRun_pairwise samples 0

/-- C6 counterexample: a periodic-analysis event whose extraction reports
RMS 0.1, centroid 500 and pitch mean 500 is classified a meow and is
labelled 紧张 (tense), while the claimed rule — the code of
`predictEmotionFromFeatures` — labels pitch 500 as 呼唤
(calling/attention): the analysis path does not follow the claimed
emotion rule. -/
theorem analysis_emotion_counterexample :
    (analyzeAudioSuccess none
        { rmsMean := some (1/10), spectralCentroidMean := some 500,
          pitchMean := some 500 } 0).emotion = "紧张" ∧
    predictEmotionFromFeatures
        (analyzeAudioSuccess none
          { rmsMean := some (1/10), spectralCentroidMean := some 500,
            pitchMean := some 500 } 0).features = "呼唤" ∧
    (analyzeAudioSuccess none
        { rmsMean := some (1/10), spectralCentroidMean := some 500,
          pitchMean := some 500 } 0).emotion ≠
      predictEmotionFromFeatures
        (analyzeAudioSuccess none
          { rmsMean := some (1/10), spectralCentroidMean := some 500,
            pitchMean := some 500 } 0).features := by
  refine ⟨by decide, by decide, by decide⟩

/-- C6 amended: only the per-sample trigger success path derives its
emotion through `predictEmotionFromFeatures`, whose rule is: absent or
zero pitch → 未知 (unknown); pitch mean > 600 → 紧张 (tense); pitch mean
in (400, 600] → 呼唤 (calling/attention); otherwise → 平静 (calm).  The
periodic analysis path instead labels a non-meow 未知 and a meow 紧张
when its (truthy) pitch mean exceeds 400 and 平静 otherwise; the trigger
fallback path labels 紧张 or 平静 by a random draw. -/
theorem emotion_rules_amended :
    (∀ (f : AudioFeatures) (rConf : ℚ) (now : ℤ),
      (triggerSuccessEvent f rConf now).emotion =
        predictEmotionFromFeatures f) ∧
    (∀ f : AudioFeatures,
      (jsTruthy f.pitchMean = false →
        predictEmotionFromFeatures f = "未知") ∧
      (jsTruthy f.pitchMean = true → f.pitchMean.getD 0 > 600 →
        predictEmotionFromFeatures f = "紧张") ∧
      (jsTruthy f.pitchMean = true → 400 < f.pitchMean.getD 0 →
        f.pitchMean.getD 0 ≤ 600 →
        predictEmotionFromFeatures f = "呼唤") ∧
      (jsTruthy f.pitchMean = true → f.pitchMean.getD 0 ≤ 400 →
        predictEmotionFromFeatures f = "平静")) ∧
    (∀ (dm : Option ℚ) (d : ExtractionData) (now : ℤ),
      ((analyzeAudioSuccess dm d now).isMeow = false →
        (analyzeAudioSuccess dm d now).emotion = "未知") ∧
      ((analyzeAudioSuccess dm d now).isMeow = true →
        jsTruthy (analyzeAudioSuccess dm d now).features.pitchMean = true →
        (analyzeAudioSuccess dm d now).features.pitchMean.getD 0 > 400 →
        (analyzeAudioSuccess dm d now).emotion = "紧张") ∧
      ((analyzeAudioSuccess dm d now).isMeow = true →
        ¬ (jsTruthy (analyzeAudioSuccess dm d now).features.pitchMean = true ∧
            (analyzeAudioSuccess dm d now).features.pitchMean.getD 0 > 400) →
        (analyzeAudioSuccess dm d now).emotion = "平静")) ∧
    (∀ (r : MockRandoms) (rEmo rConf : ℚ) (now : ℤ),
      (rEmo > 1/2 →
        (triggerFallbackEvent r rEmo rConf now).emotion = "紧张") ∧
      (¬ rEmo > 1/2 →
        (triggerFallbackEvent r rEmo rConf now).emotion = "平静")) := by
  refine ⟨fun f rConf now => rfl, fun f => ?_, fun dm d now => ?_,
    fun r rEmo rConf now => ?_⟩
  · refine ⟨fun h => ?_, fun ht h600 => ?_, fun ht h400 h600 => ?_,
      fun ht h400 => ?_⟩
    · simp [predictEmotionFromFeatures, h]
    · simp [predictEmotionFromFeatures, ht, h600]
    · have h600n : ¬ (f.pitchMean.getD 0 > 600) := not_lt.mpr h600
      simp [predictEmotionFromFeatures, ht, h400, h600n]
    · have h4n : ¬ (f.pitchMean.getD 0 > 400) := not_lt.mpr h400
      have h6n : ¬ (f.pitchMean.getD 0 > 600) :=
        not_lt.mpr (le_trans h400 (by norm_num))
      simp [predictEmotionFromFeatures, ht, h4n, h6n]
  · have hE : (analyzeAudioSuccess dm d now).emotion =
        (if (analyzeAudioSuccess dm d now).isMeow then
          (if jsTruthy (analyzeAudioSuccess dm d now).features.pitchMean &&
              decide
                ((analyzeAudioSuccess dm d now).features.pitchMean.getD 0
                  > 400)
           then "紧张" else "平静")
         else "未知") := rfl
    refine ⟨fun h => ?_, fun h ht h4 => ?_, fun h hn => ?_⟩
    · rw [hE, h]
      simp
    · rw [hE, h]
      simp [ht, h4]
    · rw [hE, h]
      simp only [if_true, Bool.true_eq]
      cases hjt : jsTruthy (analyzeAudioSuccess dm d now).features.pitchMean
      · simp [hjt]
      · have h4n :
            ¬ ((analyzeAudioSuccess dm d now).features.pitchMean.getD 0
              > 400) := fun hgt => hn ⟨hjt, hgt⟩
        simp [hjt, h4n]
  · have hF : (triggerFallbackEvent r rEmo rConf now).emotion =
        (if rEmo > 1/2 then "紧张" else "平静") := rfl
    refine ⟨fun h => ?_, fun h => ?_⟩
    · rw [hF, if_pos h]
    · rw [hF, if_neg h]

/-- C6 amended witness: the degraded feature set (pitch 500) is labelled
呼唤 by the trigger-path rule, and a quiet analysis-path result (RMS
0.01, not a meow) is labelled 未知. -/
theorem emotion_rules_amended_witness :
    predictEmotionFromFeatures getBasicFeaturesFromMetering = "呼唤" ∧
    (analyzeAudioSuccess none { rmsMean := some (1/100) } 0).emotion =
      "未知" := by
  constructor
  · exact (emotion_rules_amended.2.1 getBasicFeaturesFromMetering).2.2.1
      (by decide) (by decide) (by decide)
  · exact (emotion_rules_amended.2.2.1 none
      { rmsMean := some (1/100) } 0).1 (by decide)

set_option maxRecDepth 100000 in
/-- C7 counterexample: after ten −60 dBFS samples the evaluator holds ten
stored values, noise floor −60; the sample −38 dBFS at time 5000 fires
(code margin is the fixed default 20 dB because fewer than 20 samples are
stored), yet the claim's margin rule — standard deviation of the stored
samples is √40 ≥ 5, hence margin 25 dB — demands the sample exceed
−60 + 25 = −35 dBFS, which −38 does not: the fire violates the claimed
margin condition. -/
theorem adaptive_margin_counterexample :
    (updateAndCheck
        ((runAdaptive initialAdaptiveThreshold
          (List.replicate 10 (-60, 0))).2) (-38) 5000).1 = true ∧
    ¬ ((-38 : ℚ) >
        (updateAndCheck
            ((runAdaptive initialAdaptiveThreshold
              (List.replicate 10 (-60, 0))).2) (-38) 5000).2.noiseFloor +
          claimedDynamicMargin
            (updateAndCheck
                ((runAdaptive initialAdaptiveThreshold
                  (List.replicate 10 (-60, 0))).2) (-38)
                5000).2.recentValues) := by
  constructor <;> decide


/-- C7 amended: `updateAndCheck` fires only when all of the following
hold — the sample is at least the post-update noise floor plus the code
margin (the fixed default 20 dB with fewer than 20 stored samples,
otherwise 15/20/25 dB by the recent standard deviation); the sample is
at least −40 dBFS; the sample is a significant peak, which with fewer
than 10 stored samples means strictly above the fixed −30 dBFS and
otherwise means strictly more than 3 dB above the maximum or strictly
more than 10 dB above the mean of the 9 stored samples preceding it; and
strictly more than 1000 ms elapsed since the evaluator's last fire. -/
theorem updateAndCheck_fires_only_if :
    ∀ (st : AdaptiveThreshold) (metering : ℚ) (now : ℤ),
      (updateAndCheck st metering now).1 = true →
      metering ≥ adaptivePostFloor st (adaptivePostValues st metering) +
        calculateDynamicMargin (adaptivePostValues st metering) ∧
      metering ≥ -40 ∧
      isSignificantPeak (adaptivePostValues st metering) metering = true ∧
      ((adaptivePostValues st metering).length < 10 → metering > -30) ∧
      ((adaptivePostValues st metering).length ≥ 10 →
        metering > listMax (((adaptivePostValues st metering).drop
          ((adaptivePostValues st metering).length - 10)).dropLast) + 3 ∨
        metering > listMean (((adaptivePostValues st metering).drop
          ((adaptivePostValues st metering).length - 10)).dropLast) + 10) ∧
      now - st.lastTriggerTime > 1000 := by
  intro st m now h
  unfold updateAndCheck at h
  dsimp only at h
  split_ifs at h with h1 h2
  push_neg at h1
  obtain ⟨hthr, h40⟩ := h1
  have hpeak := h2.1
  refine ⟨hthr, h40, hpeak, ?_, ?_, h2.2⟩
  · intro hlen
    unfold isSignificantPeak at hpeak
    rw [if_pos hlen] at hpeak
    exact of_decide_eq_true hpeak
  · intro hlen
    unfold isSignificantPeak at hpeak
    rw [if_neg (by omega)] at hpeak
    dsimp only at hpeak
    simpa using hpeak

set_option maxRecDepth 100000 in
/-- C7 amended witness: the fire exhibited by the concrete −38 dBFS
sample satisfies the amended conditions, e.g. the −40 dBFS gate and the
strict 1000 ms debounce. -/
theorem updateAndCheck_fires_only_if_witness :
    (-38 : ℚ) ≥ -40 ∧
    (5000 : ℤ) - (runAdaptive initialAdaptiveThreshold
      (List.replicate 10 (-60, 0))).2.lastTriggerTime > 1000 := by
  have h := updateAndCheck_fires_only_if
    ((runAdaptive initialAdaptiveThreshold
      (List.replicate 10 (-60, 0))).2) (-38) 5000 (by decide)
  exact ⟨h.2.1, h.2.2.2.2.2⟩

end MeowCamera
